import Mathlib

set_option maxRecDepth 4000

/-!
A shallow embedding of `src/WARM_ai_agent.py` (the WARM AI agent's natural
language to SQL pipeline), together with theorems settling the frozen claims
about its specification.

Conventions of the embedding:
* Python `Optional` fields are `Option`; a `none` stands for the value `None`
  (the `AgentState` TypedDict always carries all six keys at runtime, because
  the initial state sets each of them explicitly).
* Python values of type `Any` (agent responses, row cell values, returned
  result dictionaries) are embedded as the inductive `PyValue`.
* Exceptions are embedded with `Except String`: an external collaborator
  (language model chain, database engine, fallback agent executor) is a
  function into `Except String _`, where `.error msg` is a raised exception
  whose `str(e)` is `msg`.
* Python string truthiness (`if state.get("error")`) is `pyTruthyStr`:
  a present, non-empty string.
-/

/-- Embedding of Python `Any` values as far as the program inspects them. -/
inductive PyValue where
  | pnone
  | pbool (b : Bool)
  | pint (n : Int)
  | pstr (s : String)
  | plist (xs : List PyValue)
  | pdict (entries : List (String × PyValue))

/-- A materialized database row: `dict(zip(columns, row))`, kept as the
ordered column/value pairs the `dict` constructor receives. -/
abbrev Row := List (String × PyValue)

/-- The Query Executor's output: `List[Dict[str, Any]]`. -/
abbrev Rows := List Row

/-- What the database engine hands back for one statement before
materialization: the column names (`result.keys()`) and the fetched raw rows
(`result.fetchall()`). -/
abbrev DBResult := List String × List (List PyValue)

/-- Embeds the `QueryIntent` TypedDict from the source. `query_type` is one of the
literal strings `"location_specific" | "general" | "comparison"`; it is kept
as a `String` exactly as Python stores it. -/
structure QueryIntent where
  needs_location : Bool
  location_terms : List String
  query_type : String
deriving Repr, DecidableEq

/-- Embeds the `SQLResponse` TypedDict from the source. -/
structure SQLResponse where
  explanation : String
  sql_query : String
  suggested_actions : List String
deriving Repr, DecidableEq

/-- Embeds the `AgentState` TypedDict from the source: the pipeline's working record.
Every state the program constructs carries all six keys (the initial state
sets each one), so an `Option` field records the stored value, `none` being
Python `None`. -/
structure AgentState where
  question : String
  intent : Option QueryIntent
  processed_question : Option String
  sql_response : Option SQLResponse
  results : Option Rows
  error : Option String

/-- Python truthiness of an `Optional[str]` field: `None` and `""` are falsy,
any non-empty string is truthy. -/
def pyTruthyStr : Option String → Bool
  | none => false
  | some s => s != ""

/-- ASCII lower-casing of a string, `str.lower()` for the ASCII text the
program handles. -/
def pyLower (s : String) : String := ⟨s.data.map Char.toLower⟩

/-- ASCII upper-casing of a string, `str.upper()` for the ASCII text the
program handles. -/
def pyUpper (s : String) : String := ⟨s.data.map Char.toUpper⟩

/-- Does `pat` start the list `s`?  (Python `str.startswith`, used to embed
`str.replace`'s scan.) -/
def startsWith (pat s : List Char) : Bool :=
  match pat, s with
  | [], _ => true
  | _ :: _, [] => false
  | a :: ps, b :: ss => a == b && startsWith ps ss

/-- Substring test on character lists (Python's `in` for strings). -/
def hasInfixChars (pat : List Char) : List Char → Bool
  | [] => startsWith pat []
  | c :: rest => startsWith pat (c :: rest) || hasInfixChars pat rest

/-- Embeds `sub in s` for strings. -/
def hasSubstr (s sub : String) : Bool := hasInfixChars sub.data s.data

/-- Embeds `str.replace` with an empty pattern: Python inserts the replacement
before every character and once at the end. -/
def pyReplaceEmptyPat (rep : List Char) : List Char → List Char
  | [] => rep
  | c :: rest => rep ++ c :: pyReplaceEmptyPat rep rest

/-- Embeds `str.replace` with a non-empty pattern: scan left to right, replacing
each non-overlapping occurrence.  `fuel` bounds the recursion; every step
consumes at least one character, so `fuel = s.length` always suffices and the
fuel-exhausted arm is never reached at the call site in `pyReplace`. -/
def replaceFuel (pat rep : List Char) : Nat → List Char → List Char
  | _, [] => []
  | 0, s => s
  | fuel + 1, c :: rest =>
    if startsWith pat (c :: rest) then
      rep ++ replaceFuel pat rep fuel (rest.drop (pat.length - 1))
    else
      c :: replaceFuel pat rep fuel rest

/-- Python `s.replace(pat, rep)` (all occurrences, left to right,
non-overlapping). -/
def pyReplace (s pat rep : String) : String :=
  match pat.data with
  | [] => ⟨pyReplaceEmptyPat rep.data s.data⟩
  | p :: ps => ⟨replaceFuel (p :: ps) rep.data s.data.length s.data⟩

/-- Embeds `LocationMapper.STATION_MAPPING`: the static catalog from canonical
upper-case location names to station codes, in source order. -/
def LocationMapper.STATION_MAPPING : List (String × String) :=
  [("BELLEVILLE", "FRM"),
   ("BIG BEND", "BBC"),
   ("BONDVILLE", "BVL"),
   ("BROWNSTOWN", "BRW"),
   ("CARBONDALE", "SIU"),
   ("CHAMPAIGN", "CMI"),
   ("DEKALB", "DEK"),
   ("DIXON SPRINGS", "DXS"),
   ("FAIRFIELD", "FAI"),
   ("FREEPORT", "FRE"),
   ("KILBOURNE", "SFM"),
   ("MONMOUTH", "MON"),
   ("OLNEY", "OLN"),
   ("PEORIA", "ICC"),
   ("PERRY", "ORR"),
   ("REND LAKE", "RND"),
   ("SNICARTE", "SNI"),
   ("ST. CHARLES", "STC"),
   ("SPRINGFIELD", "LLC"),
   ("STELLE", "STE")]

/-- Embeds `LocationMapper.get_station_code`:
`cls.STATION_MAPPING.get(location.upper())`. -/
def LocationMapper.get_station_code (location : String) : Option String :=
  LocationMapper.STATION_MAPPING.lookup (pyUpper location)

/-- Embeds `extract_sql_query(response)`: `response.get('sql_query')` when the value
is a mapping, `None` otherwise.  Total; never raises. -/
def extract_sql_query (response : PyValue) : PyValue :=
  match response with
  | .pdict entries => (entries.lookup "sql_query").getD .pnone
  | _ => .pnone

/-- The Python dict literal `{"key": v, **state}` used by `_classify_intent`
and `_execute_sql`: the explicit binding is written first and then `**state`
is spread over it.  In a Python dict literal, later bindings win, and every
state the pipeline builds carries all six `AgentState` keys, so each field of
the result is read back from `state`, overriding the explicit update
(recorded in the `_overridden` argument). -/
def spreadAfter (_overridden s : AgentState) : AgentState :=
  { question := s.question
    intent := s.intent
    processed_question := s.processed_question
    sql_response := s.sql_response
    results := s.results
    error := s.error }

/-- Embeds `SQLAIAgent._classify_intent`.  `intent_chain` embeds
`self.intent_chain.invoke`, raising on a language-model or parse failure.
Success returns `{"intent": intent, **state}`; failure returns
`{"error": f"Intent classification failed: {e}", **state}`. -/
def classifyIntent (intent_chain : String → Except String QueryIntent)
    (s : AgentState) : AgentState :=
  match intent_chain s.question with
  | .ok intent => spreadAfter { s with intent := some intent } s
  | .error e =>
    spreadAfter { s with error := some ("Intent classification failed: " ++ e) } s

/-- Embeds `SQLAIAgent.execute_sql` (the Query Executor method).  `db` embeds the
scoped `connection.execute(text(query))` round trip, raising on a database
error.  The body wraps everything in `try/except`; the handler prints the
error and returns `None`, so the method itself never raises — the first
component is `Except` only to make that visible (`.error` would be an
escaping exception, and none is ever produced).  The second component lists
the statements actually sent to the engine: always exactly `[query]`,
verbatim. -/
def executeSQL (db : String → Except String DBResult) (query : String) :
    Except String (Option Rows) × List String :=
  match db query with
  | .ok (columns, fetched) =>
    (Except.ok (some (fetched.map fun row => columns.zip row)), [query])
  | .error _ => (Except.ok none, [query])

/-- Embeds `SQLAIAgent._execute_sql` (the `execute_sql` graph node).
`if not state.get("sql_response")` guards the missing-SQL case; otherwise the
node calls `self.execute_sql` and merges `{"results": results, **state}`
(or, were an exception to escape, `{"error": f"SQL execution failed: {e}",
**state}` — dead in practice since `execute_sql` catches everything). -/
def executeSqlNode (db : String → Except String DBResult) (s : AgentState) :
    AgentState :=
  match s.sql_response with
  | none => spreadAfter { s with error := some "No SQL query to execute" } s
  | some r =>
    match (executeSQL db r.sql_query).1 with
    | .ok results => spreadAfter { s with results := results } s
    | .error e =>
      spreadAfter { s with error := some ("SQL execution failed: " ++ e) } s

/-- Embeds `SQLAIAgent._process_locations_helper`: for each intent term with a
catalog station code, lower-case the current question text and replace every
occurrence of the lower-cased term by
`f"{location} (Station: {station_code})"` (term in its original casing,
code upper-case).  Pure string work: total, raises nothing. -/
def processLocationsHelper (question : String) (intent : QueryIntent) : String :=
  intent.location_terms.foldl
    (fun q location =>
      match LocationMapper.get_station_code location with
      | some station_code =>
        pyReplace (pyLower q) (pyLower location)
          (location ++ " (Station: " ++ station_code ++ ")")
      | none => q)
    question

/-- Embeds `SQLAIAgent._process_locations`.  `if not state.get("intent")` catches a
missing intent; `if not state["intent"].get("needs_location", False)` passes
the question through unchanged; otherwise the helper runs (its `except` arm
is dead: the helper is pure string manipulation). -/
def processLocations (s : AgentState) : AgentState :=
  match s.intent with
  | none => { s with error := some "No intent found in state" }
  | some intent =>
    if intent.needs_location then
      { s with processed_question := some (processLocationsHelper s.question intent) }
    else
      { s with processed_question := some s.question }

/-- Embeds `SQLAIAgent._generate_sql`.  A truthy pre-existing `error` passes the
state through unchanged; otherwise the SQL Synthesizer chain is invoked on
`state.get("processed_question", state["question"])`.  Every state the
program builds carries the `processed_question` key (the initial state sets
all six keys), and `dict.get` uses its default only for a missing key, so the
chain receives the stored value — the annotated string when set, Python
`None` when not — and the `state["question"]` default is dead; the chain
collaborator therefore takes an `Option String`.  The answer is merged as
`{**state, "sql_response": ...}`, a raised exception recorded as
`{**state, "error": f"SQL generation failed: {e}"}`. -/
def generateSql (query_chain : Option String → Except String SQLResponse)
    (s : AgentState) : AgentState :=
  if pyTruthyStr s.error then s
  else
    match query_chain s.processed_question with
    | .ok r => { s with sql_response := some r }
    | .error e => { s with error := some ("SQL generation failed: " ++ e) }

/-- Embeds `SQLAIAgent._should_execute_sql`: the conditional-routing function,
returning the literal labels the graph dispatches on. -/
def shouldExecuteSQL (s : AgentState) : String :=
  if pyTruthyStr s.error then "error"
  else if s.sql_response.isSome then "execute"
  else "end"

/-- The conditional edge added after `generate_sql` in `_create_graph`:
`{"execute": "execute_sql", "error": END, "end": END}`.  Returns the final
state together with the list of nodes run after the routing decision (the
`execute_sql` node runs exactly once before `END`, or the graph ends at
once). -/
def dispatchAfterGenerate (db : String → Except String DBResult)
    (s : AgentState) : AgentState × List String :=
  match shouldExecuteSQL s with
  | "execute" => (executeSqlNode db s, ["execute_sql"])
  | _ => (s, [])

/-- One `workflow.invoke` run of the compiled graph from `_create_graph`:
`classify_intent → process_locations → generate_sql → (conditional)`,
with the trace of executed node names. -/
def runWorkflowTrace (intent_chain : String → Except String QueryIntent)
    (query_chain : Option String → Except String SQLResponse)
    (db : String → Except String DBResult) (s0 : AgentState) :
    AgentState × List String :=
  let s1 := classifyIntent intent_chain s0
  let s2 := processLocations s1
  let s3 := generateSql query_chain s2
  let (sf, tail) := dispatchAfterGenerate db s3
  (sf, ["classify_intent", "process_locations", "generate_sql"] ++ tail)

/-- The final `AgentState` of one `workflow.invoke` run. -/
def runWorkflow (intent_chain : String → Except String QueryIntent)
    (query_chain : Option String → Except String SQLResponse)
    (db : String → Except String DBResult) (s0 : AgentState) : AgentState :=
  (runWorkflowTrace intent_chain query_chain db s0).1

/-- The `initial_state` built by `SQLAIAgent.query`: every key present, all
but `question` set to `None`. -/
def initialState (question : String) : AgentState :=
  { question := question
    intent := none
    processed_question := none
    sql_response := none
    results := none
    error := none }

/-- Dictionary lookup on an embedded Python value: `v["key"]` / `v.get("key")`
field access on the result dictionaries (`none` when the key is absent or the
value is not a mapping). -/
def pyGet (v : PyValue) (key : String) : Option PyValue :=
  match v with
  | .pdict entries => entries.lookup key
  | _ => none

/-- Rows as the Python value stored under `"results"`. -/
def rowsToPy (rows : Rows) : PyValue := .plist (rows.map .pdict)

/-- The dictionary `query` returns on the primary path when a SQLResponse is
present, key for key: `final_state.get("sql_response", {})` returns the
stored mapping (the key is always present), whose fields feed `explanation`,
`sql_query` and `suggested_actions` (`.get("suggested_actions", [])`);
`final_state.get("results")` feeds `results`.  When `sql_response` holds
`None` instead, `query` never reaches this dictionary: see `attrErrNoneGet`
in `query`. -/
def primaryResult (r : SQLResponse) (results : Option Rows) : PyValue :=
  .pdict
    [("explanation", .pstr r.explanation),
     ("sql_query", .pstr r.sql_query),
     ("results",
      match results with
      | some rows => rowsToPy rows
      | none => .pnone),
     ("suggested_actions", .plist (r.suggested_actions.map .pstr))]

/-- Message of the `AttributeError` Python raises for
`None.get("explanation")`, as `str(e)`. -/
def attrErrNoneGet : String :=
  "\x27NoneType\x27 object has no attribute \x27get\x27"

/-- The dictionary `query` returns on the fallback path, key for key: a fixed
fallback explanation, the opportunistically extracted SQL, the fallback
agent's raw response as `results`, and a fixed suggested action recording the
primary workflow failure.  No `"error"` key is present. -/
def fallbackResult (agent_response : PyValue) : PyValue :=
  .pdict
    [("explanation", .pstr "Fallback to agent executor"),
     ("sql_query", extract_sql_query agent_response),
     ("results", agent_response),
     ("suggested_actions", .plist [.pstr "Workflow failed, used fallback agent"])]

/-- The dictionary `query` returns from its `except` handler, key for key. -/
def errorResult (e : String) : PyValue :=
  .pdict
    [("error", .pstr e),
     ("results", .pnone),
     ("sql_query", .pnone),
     ("suggested_actions", .plist [.pstr "Error occurred, please try again"])]

/-- Embeds `SQLAIAgent.query`, the caller-facing operation.  Parameters embed the
collaborators: `verify` is `self._verify_initialization()` (raising when
attributes are missing), `agent_executor` is the Fallback Strategy
`self.agent_executor.invoke({"input": question})` on the raw question.  The
whole body runs inside `try/except`, so every escaping exception becomes the
`errorResult` dictionary and the operation itself always returns a value.
The second component is the log of `print` calls issued by `query` itself
(stage-internal debug prints are not tracked).  On the no-error path with no
SQLResponse, `final_state.get("sql_response", {})` returns the stored `None`
(the key is always present, so the `{}` default never engages) and
`None.get("explanation")` raises `AttributeError`, which the outer `except`
converts into the `errorResult` dictionary. -/
def query (verify : Except String Unit)
    (intent_chain : String → Except String QueryIntent)
    (query_chain : Option String → Except String SQLResponse)
    (db : String → Except String DBResult)
    (agent_executor : String → Except String PyValue)
    (question : String) : PyValue × List String :=
  match verify with
  | .error e => (errorResult e, ["Error executing query: " ++ e])
  | .ok _ =>
    let final_state := runWorkflow intent_chain query_chain db (initialState question)
    if pyTruthyStr final_state.error then
      match agent_executor question with
      | .ok agent_response =>
        (fallbackResult agent_response,
         ["Error in workflow: " ++ final_state.error.getD ""])
      | .error e =>
        (errorResult e,
         ["Error in workflow: " ++ final_state.error.getD "",
          "Error executing query: " ++ e])
    else
      match final_state.sql_response with
      | some r => (primaryResult r final_state.results, [])
      | none =>
        (errorResult attrErrNoneGet, ["Error executing query: " ++ attrErrNoneGet])

/-! ## Basic facts about the stage merges -/

/-- Merging `{"k": v, **state}` with all six keys present in `state` gives `state`. -/
theorem spreadAfter_eq (a s : AgentState) : spreadAfter a s = s := rfl

/-- Stage `_classify_intent` returns the incoming state unchanged on both branches:
the `**state` spread overrides the stage's own `intent`/`error` binding. -/
theorem classifyIntent_eq (intent_chain : String → Except String QueryIntent)
    (s : AgentState) : classifyIntent intent_chain s = s := by
  unfold classifyIntent
  cases intent_chain s.question <;> rfl

/-- Every `workflow.invoke` run from the initial state built by `query` ends
in the error terminal with `"No intent found in state"`: `_classify_intent`
drops the classifier's output (its `**state` spread overrides the `intent`
binding), so `_process_locations` never finds an intent, and `_generate_sql`
and the router then pass the error state through. -/
theorem runWorkflow_initialState (intent_chain : String → Except String QueryIntent)
    (query_chain : Option String → Except String SQLResponse)
    (db : String → Except String DBResult) (q : String) :
    runWorkflow intent_chain query_chain db (initialState q)
      = { initialState q with error := some "No intent found in state" } := by
  unfold runWorkflow runWorkflowTrace
  rw [classifyIntent_eq]
  rfl

/-! ## C1 -/

/-- C1: the claim states that every stage merges its own updates into the
prior state, never losing its work product — on classifier success the
returned state carries the classifier's intent, on failure an error string,
and `execute_sql` records results or an error.  The code violates this:
`_classify_intent` and `_execute_sql` build `{"update": v, **state}` with the
spread last, so the prior state's keys override the update and the stage's
own work is discarded.  This theorem evaluates the code at the failing
inputs: a successful classification leaves `intent = None`, a failed one
leaves `error = None`, and `execute_sql` on a state carrying a SQLResponse
leaves both `results` and `error` as `None` whether execution succeeds or
fails. -/
theorem c1_stage_updates_dropped :
    (classifyIntent (fun _ => Except.ok ⟨true, ["Champaign"], "location_specific"⟩)
        (initialState "What is the temperature in Champaign?")).intent = none
    ∧ (classifyIntent (fun _ => Except.error "llm unavailable")
        (initialState "What is the temperature in Champaign?")).error = none
    ∧ (executeSqlNode (fun _ => Except.ok (["station_code"], [[PyValue.pstr "CMI"]]))
        { initialState "q" with sql_response := some ⟨"explains", "SELECT 1", []⟩ }).results = none
    ∧ (executeSqlNode (fun _ => Except.error "db down")
        { initialState "q" with sql_response := some ⟨"explains", "SELECT 1", []⟩ }).error = none :=
  ⟨rfl, rfl, rfl, rfl⟩

/-! ## C9 -/

/-- C9: the claim states that when the classifier reports
`needs_location = false`, the `process_locations` stage sets
`processed_question` to `question` exactly and raises no error.  The code
violates this upstream: `_classify_intent`'s `{"intent": intent, **state}`
spread drops the classifier's report, so `process_locations` finds no intent
and records the error `"No intent found in state"`, leaving
`processed_question` as `None`.  Evaluated here at the spec's own example
question with a classifier that reports `needs_location = false`. -/
theorem c9_resolver_never_sees_intent :
    (processLocations (classifyIntent (fun _ => Except.ok ⟨false, [], "general"⟩)
        (initialState "Show me all stations with temperature above 75"))).processed_question = none
    ∧ (processLocations (classifyIntent (fun _ => Except.ok ⟨false, [], "general"⟩)
        (initialState "Show me all stations with temperature above 75"))).error
      = some "No intent found in state" :=
  ⟨rfl, rfl⟩

/-! ## C2 -/

/-- C2: for every state reaching the routing decision after `generate_sql`,
the rule is evaluated in order — a truthy (non-empty) `error` routes to the
error terminal regardless of `sql_response`; otherwise a present
`sql_response` routes to `execute_sql`, which the conditional edge then runs
exactly once before `END`; otherwise the run ends at the benign empty
terminal. -/
theorem c2_routing_order (db : String → Except String DBResult) (s : AgentState) :
    (pyTruthyStr s.error = true → shouldExecuteSQL s = "error")
    ∧ (pyTruthyStr s.error = true → s.sql_response.isSome = true →
        shouldExecuteSQL s = "error" ∧ (dispatchAfterGenerate db s).2 = [])
    ∧ (pyTruthyStr s.error = false → s.sql_response.isSome = true →
        shouldExecuteSQL s = "execute" ∧ (dispatchAfterGenerate db s).2 = ["execute_sql"])
    ∧ (pyTruthyStr s.error = false → s.sql_response = none →
        shouldExecuteSQL s = "end" ∧ (dispatchAfterGenerate db s).2 = []) := by
  refine ⟨fun h => ?_, fun h _ => ?_, fun h h2 => ?_, fun h h2 => ?_⟩
  · simp [shouldExecuteSQL, h]
  · constructor <;> simp [shouldExecuteSQL, dispatchAfterGenerate, h]
  · constructor <;> simp [shouldExecuteSQL, dispatchAfterGenerate, h, h2]
  · constructor <;> simp [shouldExecuteSQL, dispatchAfterGenerate, h, h2]

/-- Witness for C2 at a concrete state: no error, a SQLResponse present,
routing executes the `execute_sql` node exactly once. -/
theorem c2_routing_order_witness :
    shouldExecuteSQL { initialState "q" with sql_response := some ⟨"e", "SELECT 1", []⟩ } = "execute"
    ∧ (dispatchAfterGenerate (fun _ => Except.ok ([], []))
        { initialState "q" with sql_response := some ⟨"e", "SELECT 1", []⟩ }).2 = ["execute_sql"] :=
  (c2_routing_order (fun _ => Except.ok ([], []))
    { initialState "q" with sql_response := some ⟨"e", "SELECT 1", []⟩ }).2.2.1 rfl rfl

/-! ## C10 -/

/-- C10: `extract_sql_query` is total and never raises; any non-mapping
input — in particular any plain string — yields `None`, a mapping yields the
value stored under `"sql_query"` (`None` when absent), and consequently the
`sql_query` field of a fallback-path result is non-`None` only when the
fallback agent's raw response is a mapping containing a `"sql_query"` key. -/
theorem c10_extract_sql_query_total (v : PyValue) :
    ((∀ es, v ≠ PyValue.pdict es) → extract_sql_query v = PyValue.pnone)
    ∧ (∀ s, extract_sql_query (PyValue.pstr s) = PyValue.pnone)
    ∧ (∀ es, extract_sql_query (PyValue.pdict es)
        = (es.lookup "sql_query").getD PyValue.pnone)
    ∧ (extract_sql_query v ≠ PyValue.pnone →
        ∃ es x, v = PyValue.pdict es ∧ es.lookup "sql_query" = some x
          ∧ x ≠ PyValue.pnone ∧ pyGet (fallbackResult v) "sql_query" = some x) := by
  refine ⟨?_, fun _ => rfl, fun _ => rfl, ?_⟩
  · cases v with
    | pdict es => exact fun h => absurd rfl (h es)
    | pnone => exact fun _ => rfl
    | pbool b => exact fun _ => rfl
    | pint n => exact fun _ => rfl
    | pstr s => exact fun _ => rfl
    | plist xs => exact fun _ => rfl
  · cases v with
    | pdict es =>
      intro h
      cases hl : es.lookup "sql_query" with
      | none =>
        exact absurd (by simp [extract_sql_query, hl]) h
      | some x =>
        refine ⟨es, x, rfl, hl, ?_, ?_⟩
        · intro hx
          exact h (by simp [extract_sql_query, hl, hx])
        · have hx : extract_sql_query (PyValue.pdict es) = x := by
            simp [extract_sql_query, hl]
          simp [pyGet, fallbackResult, List.lookup, hx]
    | pnone => exact fun h => absurd rfl h
    | pbool b => exact fun h => absurd rfl h
    | pint n => exact fun h => absurd rfl h
    | pstr s => exact fun h => absurd rfl h
    | plist xs => exact fun h => absurd rfl h

/-- Witness for C10 at a concrete mapping carrying a `"sql_query"` key. -/
theorem c10_extract_sql_query_total_witness :
    extract_sql_query (PyValue.pdict [("sql_query", PyValue.pstr "SELECT 1")])
      = PyValue.pstr "SELECT 1" := by
  have h := (c10_extract_sql_query_total
    (PyValue.pdict [("sql_query", PyValue.pstr "SELECT 1")])).2.2.1
      [("sql_query", PyValue.pstr "SELECT 1")]
  simpa using h

/-! ## Stub collaborators used for concrete evaluations -/

/-- A classifier chain that succeeds with a location-specific intent. -/
def stubIntentChain : String → Except String QueryIntent :=
  fun _ => Except.ok ⟨true, ["Champaign"], "location_specific"⟩

/-- A synthesizer chain (never reached on the runs it is used in). -/
def stubQueryChain : Option String → Except String SQLResponse :=
  fun _ => Except.error "not reached"

/-- A database engine returning an empty result set. -/
def stubDb : String → Except String DBResult := fun _ => Except.ok ([], [])

/-- A database engine whose execution raises. -/
def failingDb : String → Except String DBResult :=
  fun _ => Except.error "pyodbc.OperationalError: connection failed"

/-- A concrete raw response from the fallback agent executor. -/
def stubAgentResponse : PyValue :=
  PyValue.pdict
    [("input", PyValue.pstr "What is the temperature in Champaign?"),
     ("output", PyValue.pstr "The current temperature in Champaign is 72F.")]

/-! ## C3 -/

/-- C3: `query` always hands back a structured result dictionary instead of
propagating an exception; in particular, when even the Fallback Strategy
raises, the result is the `except` handler's dictionary, carrying the error
string and the generic retry suggestion. -/
theorem c3_unrecoverable_failure
    (intent_chain : String → Except String QueryIntent)
    (query_chain : Option String → Except String SQLResponse)
    (db : String → Except String DBResult)
    (agent_executor : String → Except String PyValue) (q e : String)
    (h : agent_executor q = Except.error e) :
    (query (Except.ok ()) intent_chain query_chain db agent_executor q).1 = errorResult e
    ∧ pyGet (query (Except.ok ()) intent_chain query_chain db agent_executor q).1 "error"
        = some (PyValue.pstr e)
    ∧ pyGet (query (Except.ok ()) intent_chain query_chain db agent_executor q).1 "suggested_actions"
        = some (PyValue.plist [PyValue.pstr "Error occurred, please try again"]) := by
  have h1 : (query (Except.ok ()) intent_chain query_chain db agent_executor q).1
      = errorResult e := by
    unfold query
    simp only [runWorkflow_initialState, h]
    rfl
  exact ⟨h1, by rw [h1]; rfl, by rw [h1]; rfl⟩

/-- Witness for C3: a concrete run whose fallback agent raises. -/
theorem c3_unrecoverable_failure_witness :
    (query (Except.ok ()) stubIntentChain stubQueryChain stubDb
        (fun _ => Except.error "agent executor down") "hello").1
      = errorResult "agent executor down" :=
  (c3_unrecoverable_failure stubIntentChain stubQueryChain stubDb
    (fun _ => Except.error "agent executor down") "hello" "agent executor down" rfl).1

/-! ## C4 -/

/-- C4 counterexample: the claim states that the fallback-path result
reports the original pipeline error alongside the fallback output.  It does
not: the pipeline terminates with `error = "No intent found in state"`, the
caller only prints that error, and the returned dictionary has no `"error"`
key at all (its `pyGet "error"` is `none`, not the pipeline error). -/
theorem c4_error_absent_from_fallback_result :
    pyGet (query (Except.ok ()) stubIntentChain stubQueryChain stubDb
        (fun _ => Except.ok stubAgentResponse) "What is the temperature in Champaign?").1
        "error" = none
    ∧ (runWorkflow stubIntentChain stubQueryChain stubDb
        (initialState "What is the temperature in Champaign?")).error
      = some "No intent found in state" :=
  ⟨rfl, rfl⟩

/-- C4 as amended: when the terminal state carries a non-empty error and the
fallback agent answers, `query` invokes the Fallback Strategy on the raw
question and returns the fallback-labeled dictionary — explanation
`"Fallback to agent executor"`, suggested action recording the primary
workflow failure, the agent's raw response under `results` and the extracted
SQL under `sql_query` — while the original pipeline error is only printed
(`"Error in workflow: ..."`), not included in the returned result, which has
no `"error"` key. -/
theorem c4_fallback_labeled
    (intent_chain : String → Except String QueryIntent)
    (query_chain : Option String → Except String SQLResponse)
    (db : String → Except String DBResult)
    (agent_executor : String → Except String PyValue) (q : String) (resp : PyValue)
    (h : agent_executor q = Except.ok resp) :
    (query (Except.ok ()) intent_chain query_chain db agent_executor q)
      = (fallbackResult resp, ["Error in workflow: No intent found in state"])
    ∧ pyGet (fallbackResult resp) "explanation"
        = some (PyValue.pstr "Fallback to agent executor")
    ∧ pyGet (fallbackResult resp) "suggested_actions"
        = some (PyValue.plist [PyValue.pstr "Workflow failed, used fallback agent"])
    ∧ pyGet (fallbackResult resp) "results" = some resp
    ∧ pyGet (fallbackResult resp) "sql_query" = some (extract_sql_query resp)
    ∧ pyGet (fallbackResult resp) "error" = none := by
  refine ⟨?_, rfl, rfl, rfl, rfl, rfl⟩
  unfold query
  simp only [runWorkflow_initialState, h]
  rfl

/-- Witness for C4 at a concrete successful fallback run. -/
theorem c4_fallback_labeled_witness :
    (query (Except.ok ()) stubIntentChain stubQueryChain stubDb
        (fun _ => Except.ok stubAgentResponse) "What is the temperature in Champaign?")
      = (fallbackResult stubAgentResponse,
         ["Error in workflow: No intent found in state"]) :=
  (c4_fallback_labeled stubIntentChain stubQueryChain stubDb
    (fun _ => Except.ok stubAgentResponse) "What is the temperature in Champaign?"
    stubAgentResponse rfl).1

/-! ## C5 -/

/-- C5 counterexample: the claim states that when execution of a SQL text
raises an underlying database error, `execute_sql` fails with an
`ExecutionError` wrapping it.  It does not fail at all: the `except` handler
prints the error and returns `None`, so the call completes normally with
`Except.ok none` — no exception (`Except.error _`) escapes and nothing wraps
the database error. -/
theorem c5_swallowed_error_counterexample :
    executeSQL failingDb "SELECT station_code FROM stations"
      = (Except.ok none, ["SELECT station_code FROM stations"]) := rfl

/-- C5 as amended: on an underlying database error, `execute_sql` does not
raise — it catches the exception, prints it, and returns `None`
(`Except.ok none`); it still performs exactly one execution and sends the
statement verbatim, with no retry, inspection, or rewrite. -/
theorem c5_execute_sql_returns_none (db : String → Except String DBResult)
    (q e : String) (h : db q = Except.error e) :
    executeSQL db q = (Except.ok none, [q]) := by
  unfold executeSQL
  rw [h]

/-- Witness for C5 at a concrete failing engine. -/
theorem c5_execute_sql_returns_none_witness :
    executeSQL failingDb "SELECT 1" = (Except.ok none, ["SELECT 1"]) :=
  c5_execute_sql_returns_none failingDb "SELECT 1"
    "pyodbc.OperationalError: connection failed" rfl

/-! ## C8 -/

/-- A synthesizer chain that succeeds with a fixed SQLResponse whatever
stored value it receives. -/
def stubSqlChainOk : Option String → Except String SQLResponse :=
  fun _ => Except.ok ⟨"lists all stations", "SELECT * FROM stations", []⟩

/-- A synthesizer chain that reports which argument the stage handed it:
one SQLResponse for Python `None`, another for any string. -/
def probingChain : Option String → Except String SQLResponse :=
  fun stored =>
    match stored with
    | none => Except.ok ⟨"invoked on None", "SELECT 0", []⟩
    | some text => Except.ok ⟨"invoked on the text " ++ text, "SELECT 1", []⟩

/-- C8 counterexample: the claim states that with no error and
`processed_question` not set, `generate_sql` invokes the SQL Synthesizer on
the raw `question`.  It does not: `state.get("processed_question",
state["question"])` finds the key present (every state carries all six keys)
holding `None`, so the chain is invoked on `None` — at the concrete no-error
initial state, the stage stores the synthesizer's answer for `None`, not
its answer for the raw question text. -/
theorem c8_raw_question_counterexample :
    (generateSql probingChain (initialState "show all stations")).sql_response
      = some ⟨"invoked on None", "SELECT 0", []⟩
    ∧ probingChain (some "show all stations")
      = Except.ok ⟨"invoked on the text show all stations", "SELECT 1", []⟩
    ∧ (generateSql probingChain (initialState "show all stations")).sql_response
      ≠ some ⟨"invoked on the text show all stations", "SELECT 1", []⟩ :=
  ⟨rfl, rfl, by decide⟩

/-- C8 as amended: `generate_sql`'s behavior on a state reaching it.  A set
error passes the state through unchanged (every error the earlier stages
write is a non-empty message, captured by the hypothesis `s.error ≠ some ""`,
and witnessed by the final conjunct: the state actually reaching
`generate_sql` always carries the non-empty `"No intent found in state"`).
Without an error the SQL Synthesizer chain is invoked on the stored
`processed_question` value — on the string when that field is set, and on
Python `None` (not the raw question: the `state["question"]` default of
`state.get("processed_question", state["question"])` is dead, the key being
always present) when it is not — its answer merged as `sql_response`, a
raised exception recorded as the `error` string. -/
theorem c8_generate_sql_stored_value
    (query_chain : Option String → Except String SQLResponse)
    (s : AgentState) (hwf : s.error ≠ some "") :
    (s.error.isSome = true → generateSql query_chain s = s)
    ∧ (s.error = none → ∀ p, s.processed_question = some p →
        generateSql query_chain s
          = match query_chain (some p) with
            | Except.ok r => { s with sql_response := some r }
            | Except.error e => { s with error := some ("SQL generation failed: " ++ e) })
    ∧ (s.error = none → s.processed_question = none →
        generateSql query_chain s
          = match query_chain none with
            | Except.ok r => { s with sql_response := some r }
            | Except.error e => { s with error := some ("SQL generation failed: " ++ e) })
    ∧ (∀ intent_chain q, processLocations (classifyIntent intent_chain (initialState q))
        = { initialState q with error := some "No intent found in state" }) := by
  refine ⟨?_, ?_, ?_, ?_⟩
  · intro h
    cases he : s.error with
    | none => rw [he] at h; exact absurd h (by simp)
    | some m =>
      have hm : m ≠ "" := fun hm => hwf (by rw [he, hm])
      simp [generateSql, pyTruthyStr, he, hm]
  · intro he p hp
    cases hq : query_chain (some p) <;>
      simp [generateSql, pyTruthyStr, he, hp, hq]
  · intro he hp
    cases hq : query_chain none <;>
      simp [generateSql, pyTruthyStr, he, hp, hq]
  · intro intent_chain q
    rw [classifyIntent_eq]
    rfl

/-- Witness for C8: a concrete no-error state with a processed question, on
which `generate_sql` stores the synthesizer's SQLResponse; and a concrete
reached error state passed through unchanged. -/
theorem c8_generate_sql_stored_value_witness :
    generateSql stubSqlChainOk
        { initialState "show stations" with
            processed_question := some "show stations (Station: CMI)" }
      = { initialState "show stations" with
            processed_question := some "show stations (Station: CMI)",
            sql_response := some ⟨"lists all stations", "SELECT * FROM stations", []⟩ }
    ∧ generateSql stubSqlChainOk
        { initialState "q" with error := some "No intent found in state" }
      = { initialState "q" with error := some "No intent found in state" } := by
  constructor
  · have h := (c8_generate_sql_stored_value stubSqlChainOk
      { initialState "show stations" with
          processed_question := some "show stations (Station: CMI)" }
      (by simp [initialState])).2.1 rfl "show stations (Station: CMI)" rfl
    simpa [stubSqlChainOk] using h
  · exact (c8_generate_sql_stored_value stubSqlChainOk
      { initialState "q" with error := some "No intent found in state" }
      (by simp [initialState])).1 rfl

/-! ## String facts for the Location Resolver claims -/

theorem startsWith_append_self (p x : List Char) : startsWith p (p ++ x) = true := by
  induction p with
  | nil => rfl
  | cons a ps ih => simp [startsWith, ih]

theorem hasInfixChars_of_startsWith {pat s : List Char}
    (h : startsWith pat s = true) : hasInfixChars pat s = true := by
  cases s with
  | nil => exact h
  | cons c rest => simp [hasInfixChars, h]

theorem hasInfixChars_cons {pat s : List Char} (c : Char)
    (h : hasInfixChars pat s = true) : hasInfixChars pat (c :: s) = true := by
  simp [hasInfixChars, h]

/-- The occurrence scan of `str.replace` keeps a copy of the replacement in
the output whenever the (non-empty) pattern occurs in the input. -/
theorem replaceFuel_keeps_rep (pat rep : List Char) (hpat : pat ≠ []) :
    ∀ fuel s, s.length ≤ fuel → hasInfixChars pat s = true →
      hasInfixChars rep (replaceFuel pat rep fuel s) = true := by
  intro fuel
  induction fuel with
  | zero =>
    intro s hs hin
    have hnil : s = [] := List.length_eq_zero.mp (Nat.le_zero.mp hs)
    subst hnil
    cases pat with
    | nil => exact absurd rfl hpat
    | cons a ps => simp [hasInfixChars, startsWith] at hin
  | succ fuel ih =>
    intro s hs hin
    cases s with
    | nil =>
      cases pat with
      | nil => exact absurd rfl hpat
      | cons a ps => simp [hasInfixChars, startsWith] at hin
    | cons c rest =>
      by_cases hpre : startsWith pat (c :: rest) = true
      · have : replaceFuel pat rep (fuel + 1) (c :: rest)
            = rep ++ replaceFuel pat rep fuel (rest.drop (pat.length - 1)) := by
          simp [replaceFuel, hpre]
        rw [this]
        exact hasInfixChars_of_startsWith (startsWith_append_self rep _)
      · have hpre' : startsWith pat (c :: rest) = false :=
          Bool.eq_false_iff.mpr hpre
        have hrest : hasInfixChars pat rest = true := by
          simpa [hasInfixChars, hpre'] using hin
        have : replaceFuel pat rep (fuel + 1) (c :: rest)
            = c :: replaceFuel pat rep fuel rest := by
          simp [replaceFuel, hpre']
        rw [this]
        exact hasInfixChars_cons c
          (ih rest (Nat.le_of_succ_le_succ hs) hrest)

theorem data_ne_nil_of_ne_empty {t : String} (ht : t ≠ "") : t.data ≠ [] := by
  intro hd
  apply ht
  cases t with
  | mk l => cases hd; rfl

theorem get_station_code_ne_empty {t station_code : String}
    (hc : LocationMapper.get_station_code t = some station_code) : t ≠ "" := by
  intro h
  subst h
  simp [LocationMapper.get_station_code, pyUpper, LocationMapper.STATION_MAPPING,
    List.lookup] at hc

/-! ## C6 -/

/-- C6 counterexample: the claim states that the Location Resolver output
contains the lower-cased annotated form, e.g. `"temp in Champaign"` with
term `"Champaign"` yields text containing `"champaign (station: cmi)"`.  The
code lower-cases the question copy but substitutes the replacement
`f"{location} (Station: {station_code})"` with the term's original casing
and the upper-case station code: the output is
`"temp in Champaign (Station: CMI)"`, which does not contain the claimed
lower-cased form. -/
theorem c6_lowercase_counterexample :
    processLocationsHelper "temp in Champaign" ⟨true, ["Champaign"], "location_specific"⟩
      = "temp in Champaign (Station: CMI)"
    ∧ hasSubstr
        (processLocationsHelper "temp in Champaign" ⟨true, ["Champaign"], "location_specific"⟩)
        "champaign (station: cmi)" = false :=
  ⟨rfl, rfl⟩

/-- C6 as amended: for every question containing (case-insensitively) a
catalog location term, where the intent carries exactly that term, the
resolver output contains the term in the intent's casing annotated with its
upper-case station code, `"<term> (Station: <CODE>)"` — the surrounding text
is lower-cased but the inserted annotation is not (with several matched
terms, later iterations additionally lower-case earlier annotations). -/
theorem c6_station_code_casing (q t station_code query_type : String)
    (hc : LocationMapper.get_station_code t = some station_code)
    (hocc : hasSubstr (pyLower q) (pyLower t) = true) :
    hasSubstr (processLocationsHelper q ⟨true, [t], query_type⟩)
      (t ++ " (Station: " ++ station_code ++ ")") = true := by
  have hstep : processLocationsHelper q ⟨true, [t], query_type⟩
      = pyReplace (pyLower q) (pyLower t)
          (t ++ " (Station: " ++ station_code ++ ")") := by
    simp [processLocationsHelper, hc]
  rw [hstep]
  have ht : t ≠ "" := get_station_code_ne_empty hc
  have hdata : (pyLower t).data ≠ [] := by
    simp only [pyLower]
    simpa [List.map_eq_nil_iff] using data_ne_nil_of_ne_empty ht
  cases hm : (pyLower t).data with
  | nil => exact absurd hm hdata
  | cons p ps =>
    have hrep : pyReplace (pyLower q) (pyLower t)
        (t ++ " (Station: " ++ station_code ++ ")")
        = ⟨replaceFuel (p :: ps) (t ++ " (Station: " ++ station_code ++ ")").data
            (pyLower q).data.length (pyLower q).data⟩ := by
      simp [pyReplace, hm]
    rw [hrep]
    have hin : hasInfixChars (p :: ps) (pyLower q).data = true := by
      have := hocc
      unfold hasSubstr at this
      rwa [hm] at this
    exact replaceFuel_keeps_rep (p :: ps) _ (by simp) _ _ (Nat.le_refl _) hin

/-- Witness for C6 at the spec's own example. -/
theorem c6_station_code_casing_witness :
    hasSubstr
      (processLocationsHelper "temp in Champaign" ⟨true, ["Champaign"], "location_specific"⟩)
      ("Champaign" ++ " (Station: " ++ "CMI" ++ ")") = true :=
  c6_station_code_casing "temp in Champaign" "Champaign" "CMI" "location_specific" rfl rfl

/-! ## C7 -/

/-- C7 counterexample: the claim states that re-running the Location
Resolver on its own already-annotated output yields it unchanged.  It does
not: the second run lower-cases the previous annotation, matches the term
again, and annotates it a second time. -/
theorem c7_not_idempotent :
    processLocationsHelper
        (processLocationsHelper "temp in Champaign" ⟨true, ["Champaign"], "location_specific"⟩)
        ⟨true, ["Champaign"], "location_specific"⟩
      ≠ processLocationsHelper "temp in Champaign" ⟨true, ["Champaign"], "location_specific"⟩ := by
  decide

/-- C7 as amended: re-running the resolver on its own output double-annotates
— the run lower-cases the previous annotation (so the term matches again)
and inserts a fresh annotation, leaving the lower-cased remnant behind:
`"temp in Champaign"` resolves to `"temp in Champaign (Station: CMI)"`, and a
second run produces `"temp in Champaign (Station: CMI) (station: cmi)"`. -/
theorem c7_double_annotation :
    processLocationsHelper "temp in Champaign" ⟨true, ["Champaign"], "location_specific"⟩
      = "temp in Champaign (Station: CMI)"
    ∧ processLocationsHelper "temp in Champaign (Station: CMI)"
        ⟨true, ["Champaign"], "location_specific"⟩
      = "temp in Champaign (Station: CMI) (station: cmi)" :=
  ⟨rfl, rfl⟩
